import Mathlib

/-!
# pbmidi: a shallow embedding of `pbmidi.go`

The Go package wraps a MIDI driver (`rtmididrv`) and forwards note events to a
channel of `Message`.  The driver library is not part of the repository; its
observable answers (the error of `rtmididrv.New()`, the pair returned by
`driver.Ins()`, the error of `Open()` on a port) are parameters of the model.

Go values are modelled as follows.

* `uint8` is `Fin 256`.
* a Go `error` is `Option GoError` (`none` is the nil error);
* a Go `[]string` is `Option (List String)` (`none` is the nil slice);
* a Go pointer result is `Option` (`none` is nil);
* a call either returns or panics (`Outcome`); a goroutine parked in a `select`
  none of whose cases can proceed is `Outcome.blocked`.
-/

namespace Pbmidi

/-! ## Data model -/

/-- Go `uint8`. -/
abbrev Uint8 := Fin 256

/-- Go `type NoteState uint8`. -/
abbrev NoteState := Uint8

/-- Go `NoteOn = NoteState(iota)`, the first constant of the block: 0. -/
def NoteOn : NoteState := 0

/-- Go `NoteOff`, the second constant of the iota block: 1. -/
def NoteOff : NoteState := 1

/-- Go `type Message struct { Key uint8; State NoteState; Veclocity uint8 }`. -/
structure Message where
  Key : Uint8
  State : NoteState
  Veclocity : Uint8
deriving DecidableEq, Repr

/-- The zero value of `Message`, what `var message Message` holds. -/
def Message.zero : Message := { Key := 0, State := 0, Veclocity := 0 }

/-- The dynamic type of a `midi.Message` handed to the reader callback.  The
type switch of `makeMessage` tells `channel.NoteOn` and `channel.NoteOff` from
everything else; the other constructors list the remaining channel messages of
the library and a catch-all for system messages. -/
inductive MidiMessage where
  | noteOn (channel key velocity : Uint8)
  | noteOff (channel key : Uint8)
  | noteOffVelocity (channel key velocity : Uint8)
  | polyAftertouch (channel key pressure : Uint8)
  | controlChange (channel controller value : Uint8)
  | programChange (channel program : Uint8)
  | aftertouch (channel pressure : Uint8)
  | pitchbend (channel : Uint8) (value : Int)
  | system (bytes : List Uint8)
deriving DecidableEq, Repr

/-- A Go `error` value that is not nil. -/
inductive GoError where
  /-- an error produced inside the driver library -/
  | driver (msg : String)
  /-- the value of
  `fmt.Errorf("requested device %d, but only have %d devices", deviceNum, len(inputs))` -/
  | errorf (deviceNum : Int) (numInputs : Nat)
deriving DecidableEq, Repr

/-- A `midi.In` port as this package sees it: its number, the text `%s` prints
for it, and the error its `Open()` returns. -/
structure In where
  number : Nat
  name : String
  openErr : Option GoError
deriving DecidableEq, Repr

/-- The answers of the driver library: the error of `rtmididrv.New()` and the
pair `([]midi.In, error)` of `driver.Ins()`. -/
structure DriverEnv where
  newErr : Option GoError
  ins : List In × Option GoError
deriving DecidableEq, Repr

/-- The state of the unbuffered `chan Message`: whether `close` has run on it,
and the messages handed over to a receiver so far, oldest first. -/
structure Chan where
  closed : Bool
  received : List Message
deriving DecidableEq, Repr

/-- Go `type PBMidi struct`.  `cancelled` is the state of `ctx` (whether
`ctx.Done()` is closed, which is what `cancel` does); `driverClosed` and
`listening` are the states of `driver` and of `input`. -/
structure PBMidi where
  cancelled : Bool
  driverClosed : Bool
  input : In
  listening : Bool
  stream : Chan
deriving DecidableEq, Repr

/-- How a call ends: it returns a value, it panics with the runtime's message,
or it is parked in a `select` in which no case can proceed. -/
inductive Outcome (α : Type) where
  | ret (a : α)
  | panic (msg : String)
  | blocked
deriving DecidableEq, Repr

/-- A run of `New`: how the call ended, and the ports on which `Open()` was
invoked, in order. -/
structure NewRun where
  result : Outcome (Option PBMidi × Option GoError)
  openCalls : List In
deriving DecidableEq, Repr

/-! ## Operations -/

/-- Go `func makeMessage(msg midi.Message) Message`: a type switch with the two
cases `channel.NoteOn` and `channel.NoteOff` and no default; `message` starts as
the zero value, and the `NoteOff` literal leaves `Veclocity` at its zero value. -/
def makeMessage (msg : MidiMessage) : Message :=
  let message : Message := Message.zero
  match msg with
  | .noteOn _ key velocity => { State := NoteOn, Key := key, Veclocity := velocity }
  | .noteOff _ key => { State := NoteOff, Key := key, Veclocity := 0 }
  | _ => message

/-- Go `func New(deviceNum int) (MidiStream, error)`. -/
def New (env : DriverEnv) (deviceNum : Int) : NewRun :=
  match env.newErr with
  | some err => { result := .ret (none, some err), openCalls := [] }
  | none =>
    let inputs := env.ins.1
    match env.ins.2 with
    | some err => { result := .ret (none, some err), openCalls := [] }
    | none =>
      if deviceNum > (inputs.length : Int) then
        { result := .ret (none, some (.errorf deviceNum inputs.length)), openCalls := [] }
      else
        match inputs[0]? with
        | none =>
          { result := .panic "runtime error: index out of range [0] with length 0", openCalls := [] }
        | some input =>
          -- input.Open(): the returned error is dropped
          { result := .ret (some { cancelled := false
                                   driverClosed := false
                                   input := input
                                   listening := false
                                   stream := { closed := false, received := [] } },
                            none),
            openCalls := [input] }

/-- Go `func Inputs() ([]string, error)`.  The loop fills `available`; the
return statement is `return nil, err`. -/
def Inputs (env : DriverEnv) : Outcome (Option (List String) × Option GoError) :=
  match env.newErr with
  | some err => .ret (none, some err)
  | none =>
    let inputs := env.ins.1
    let err := env.ins.2
    match err with
    | some e => .ret (none, some e)
    | none =>
      let _available : List String := inputs.map (fun name => name.name)
      .ret (none, err)

/-- Go `func (p *PBMidi) Stop()`: `p.input.StopListening()`, `p.driver.Close()`,
`p.cancel()`; no result of the three calls is looked at. -/
def Stop (p : PBMidi) : PBMidi :=
  { p with listening := false, driverClosed := true, cancelled := true }

/-- Go `func (p *PBMidi) Stream() <-chan Message`. -/
def Stream (p : PBMidi) : Chan := p.stream

/-- Go `close(p.stream)`: panics on a closed channel. -/
def chanClose (p : PBMidi) : Outcome PBMidi :=
  if p.stream.closed then .panic "close of closed channel"
  else .ret { p with stream := { p.stream with closed := true } }

/-- Go `p.stream <- message`, once it proceeds: panics on a closed channel,
otherwise the receiver gets the message. -/
def chanSend (p : PBMidi) (message : Message) : Outcome PBMidi :=
  if p.stream.closed then .panic "send on closed channel"
  else .ret { p with stream := { p.stream with received := p.stream.received ++ [message] } }

/-- The function handed to `reader.Each` in `Start`, run on one raw message:

    message := makeMessage(msg)
    select {
    case <-p.ctx.Done(): close(p.stream)
    case p.stream <- message:
    }

`receiverReady` says whether a consumer is receiving from `Stream()`.  The
receive from `ctx.Done()` can proceed when the context is cancelled; the send on
the unbuffered channel can proceed when a receiver is ready, or when the channel
is closed (it then panics).  `select` picks any case that can proceed, so the
result is the list of the outcomes of these cases in source order; when there is
none the callback stays parked. -/
def startCallback (p : PBMidi) (msg : MidiMessage) (receiverReady : Bool) :
    List (Outcome PBMidi) :=
  let message := makeMessage msg
  let done := if p.cancelled then [chanClose p] else []
  let send := if p.stream.closed || receiverReady then [chanSend p message] else []
  match done ++ send with
  | [] => [.blocked]
  | outcomes => outcomes

/-- Go `func (p *PBMidi) Start() error`: builds the reader and returns
`r.ListenTo(p.input)`, whose error `listenErr` comes from the library; on
success the input delivers its raw messages to `startCallback`. -/
def Start (p : PBMidi) (listenErr : Option GoError) : PBMidi × Option GoError :=
  match listenErr with
  | some err => (p, some err)
  | none => ({ p with listening := true }, none)

/-- What happens to a session, one thing after the other: a raw message (with or
without a consumer receiving), or the owner calls `Stop`. -/
inductive Action where
  | event (msg : MidiMessage) (receiverReady : Bool)
  | stop
deriving DecidableEq, Repr

/-- One action on a session, an `event` being an invocation of the callback on
the raw message: every outcome it can have.  Whether the input makes that
invocation is not decided here but in `dispatch`. -/
def step (p : PBMidi) : Action → List (Outcome PBMidi)
  | .event msg receiverReady => startCallback p msg receiverReady
  | .stop => [.ret (Stop p)]

/-- A sequence of actions, every `event` of which is handed to the callback,
each starting once the one before has returned: every outcome the sequence can
have.  A panic or a parked callback ends it. -/
def run (p : PBMidi) : List Action → List (Outcome PBMidi)
  | [] => [.ret p]
  | a :: rest =>
    (step p a).flatMap fun o =>
      match o with
      | .ret q => run q rest
      | .panic msg => [.panic msg]
      | .blocked => [.blocked]

/-- The raw messages `events` handed one by one to the callback while a
consumer reads every send. -/
def deliver (events : List MidiMessage) : List Action :=
  events.map fun msg => Action.event msg true

/-- Modelled from the spec: the listener dispatch of the driver library, which
is not part of the repository (the spec's `attachListener`, "callback invoked
once per raw event", and `stopListening`, "stops the driver's listening on the
input handle").  A raw message arriving at the input is handed to the callback
only while the input is listening, that is after `r.ListenTo(p.input)` has
succeeded and before `p.input.StopListening()`; otherwise it never reaches this
package and the session is left as it is.  `Stop` is the owner's call. -/
def dispatch (p : PBMidi) : Action → List (Outcome PBMidi)
  | .event msg receiverReady =>
    if p.listening then step p (.event msg receiverReady) else [.ret p]
  | .stop => step p .stop

/-- A sequence of raw messages arriving at the input and of `Stop` calls, each
starting once the one before has returned: every outcome the sequence can have.
A panic or a parked callback ends it. -/
def listen (p : PBMidi) : List Action → List (Outcome PBMidi)
  | [] => [.ret p]
  | a :: rest =>
    (dispatch p a).flatMap fun o =>
      match o with
      | .ret q => listen q rest
      | .panic msg => [.panic msg]
      | .blocked => [.blocked]

/-- Raw messages arriving at the input one after the other, each paired with
whether a consumer is receiving at that moment. -/
def arrivals (events : List (MidiMessage × Bool)) : List Action :=
  events.map fun e => Action.event e.1 e.2

/-! ## Sample inputs -/

/-- A port named "A" with number 0 whose `Open()` succeeds. -/
def portA : In := { number := 0, name := "A", openErr := none }

/-- A port named "B" with number 1 whose `Open()` succeeds. -/
def portB : In := { number := 1, name := "B", openErr := none }

/-- A port whose `Open()` fails. -/
def portBroken : In := { number := 0, name := "A", openErr := some (.driver "open failed") }

/-- A driver that starts, enumerates without error and reports `inputs`. -/
def driverWith (inputs : List In) : DriverEnv := { newErr := none, ins := (inputs, none) }

/-- The session `New` builds around the port `input`. -/
def freshSession (input : In) : PBMidi :=
  { cancelled := false, driverClosed := false, input := input, listening := false,
    stream := { closed := false, received := [] } }

/-! ## Theorems -/

/-- C1: `makeMessage` of a Note-On carrying key `k` and velocity `v` is exactly
`Message{State: NoteOn, Key: k, Veclocity: v}` for every `uint8` pair, and of a
Note-Off carrying key `k` is exactly `Message{State: NoteOff, Key: k, Veclocity: 0}`. -/
theorem makeMessage_note (ch k v : Uint8) :
    makeMessage (.noteOn ch k v) = { State := NoteOn, Key := k, Veclocity := v } ∧
    makeMessage (.noteOff ch k) = { State := NoteOff, Key := k, Veclocity := 0 } :=
  ⟨rfl, rfl⟩


/-- While the context is not cancelled and the channel is open, a callback whose
send finds a receiver has one outcome: the message is handed over. -/
theorem startCallback_live (p : PBMidi) (msg : MidiMessage)
    (hc : p.cancelled = false) (ho : p.stream.closed = false) :
    startCallback p msg true =
      [.ret { p with stream := { p.stream with
                received := p.stream.received ++ [makeMessage msg] } }] := by
  simp [startCallback, chanSend, hc, ho]

/-- C2: for every finite sequence of raw events handed one by one to the
callback of a session that is not cancelled (and whose channel is open), with a
consumer reading every send, the run has exactly one outcome, in which the
channel has yielded, after what it had yielded before, `makeMessage` of each
event in the order of the events: as many messages as events, none lost,
duplicated or reordered. -/
theorem deliver_in_order (events : List MidiMessage) (p : PBMidi)
    (hc : p.cancelled = false) (ho : p.stream.closed = false) :
    run p (deliver events) =
      [.ret { p with stream := { p.stream with
                received := p.stream.received ++ events.map makeMessage } }] := by
  induction events generalizing p with
  | nil => simp [deliver, run]
  | cons e rest ih =>
    have hstep := startCallback_live p e hc ho
    have hrest := ih { p with stream := { p.stream with
                        received := p.stream.received ++ [makeMessage e] } } hc ho
    simp only [deliver, List.map_cons, run, step] at hrest ⊢
    rw [hstep]
    simp only [List.flatMap_cons, List.flatMap_nil, List.append_nil]
    rw [hrest]
    simp [List.append_assoc]

/-- The scenario of three Note-On events (60/100, 64/90, 67/80) on a fresh
session: the consumer reads exactly those three messages in order. -/
theorem deliver_in_order_witness :
    (freshSession portA).cancelled = false ∧ (freshSession portA).stream.closed = false ∧
    run (freshSession portA)
        (deliver [.noteOn 0 60 100, .noteOn 0 64 90, .noteOn 0 67 80]) =
      [.ret { freshSession portA with stream := { (freshSession portA).stream with
                received := (freshSession portA).stream.received ++
                  [.noteOn 0 60 100, .noteOn 0 64 90, .noteOn 0 67 80].map makeMessage } }] :=
  ⟨rfl, rfl, deliver_in_order _ (freshSession portA) rfl rfl⟩

/-- C3: a control-change event, which is neither Note-On nor Note-Off, handed
to the callback of a fresh session with a consumer reading is not dropped: the
callback has one outcome, in which the zero `Message` has been sent on the
stream, the same message a Note-On with key 0 and velocity 0 produces. -/
theorem unrecognised_event_is_sent :
    startCallback (freshSession portA) (.controlChange 0 7 100) true =
      [.ret { freshSession portA with
                stream := { closed := false,
                            received := [{ Key := 0, State := NoteOn, Veclocity := 0 }] } }] ∧
    makeMessage (.controlChange 0 7 100) = makeMessage (.noteOn 0 0 0) := by
  constructor
  · rw [startCallback_live _ _ rfl rfl]; rfl
  · rfl

/-- C4: on the session `New` returns for a driver with one port, started
without error, a `Stop` with no raw event after it has one outcome: the context
is cancelled, the driver closed, the input no longer listening, and the stream
channel still open. -/
theorem stop_leaves_stream_open :
    (New (driverWith [portA]) 0).result = .ret (some (freshSession portA), none) ∧
    run (Start (freshSession portA) none).1 [.stop] =
      [.ret { cancelled := true, driverClosed := true, input := portA, listening := false,
              stream := { closed := false, received := [] } }] ∧
    (Stream (Stop (Start (freshSession portA) none).1)).closed = false := by
  refine ⟨rfl, rfl, rfl⟩

/-- The callback has no guard of its own: invoked on a session whose context is
cancelled and whose channel is closed, it can only panic, by running `close` on
the closed channel or by sending on it. -/
theorem startCallback_closed (p : PBMidi) (msg : MidiMessage) (receiverReady : Bool)
    (hc : p.cancelled = true) (ho : p.stream.closed = true) :
    startCallback p msg receiverReady =
      [.panic "close of closed channel", .panic "send on closed channel"] := by
  simp [startCallback, chanClose, chanSend, hc, ho]

/-- While the context is not cancelled and the channel is open, the callback
either hands the message to a ready receiver or stays parked. -/
theorem startCallback_open (p : PBMidi) (msg : MidiMessage) (receiverReady : Bool)
    (hc : p.cancelled = false) (ho : p.stream.closed = false) :
    startCallback p msg receiverReady =
      if receiverReady then
        [.ret { p with stream := { p.stream with
                  received := p.stream.received ++ [makeMessage msg] } }]
      else [.blocked] := by
  cases receiverReady <;> simp [startCallback, chanSend, hc, ho]

/-- Once the input no longer listens, arriving raw messages leave the session as
it is. -/
theorem listen_not_listening (events : List (MidiMessage × Bool)) (p : PBMidi)
    (hl : p.listening = false) :
    listen p (arrivals events) = [.ret p] := by
  induction events with
  | nil => rfl
  | cons e rest ih =>
    simp only [arrivals, List.map_cons, listen, dispatch, hl] at ih ⊢
    simpa using ih

/-- C5: on a session whose context is not cancelled and whose channel is open,
for every sequence of raw messages arriving before a `Stop` call and every
sequence arriving after it (each with or without a consumer receiving), no
outcome of the run is a panic, so `close` is never executed on a closed channel;
and the messages arriving after the `Stop` change nothing, since `Stop` ends the
listening before it cancels: no raw event reaches the callback once cancellation
has fired, so there is no second close. -/
theorem stream_closed_at_most_once (before after : List (MidiMessage × Bool)) (p : PBMidi)
    (hc : p.cancelled = false) (ho : p.stream.closed = false) :
    (∀ o ∈ listen p (arrivals before ++ Action.stop :: arrivals after),
        ∀ msg, o ≠ .panic msg) ∧
    listen p (arrivals before ++ Action.stop :: arrivals after) =
      listen p (arrivals before ++ [Action.stop]) := by
  induction before generalizing p with
  | nil =>
    have hstop : listen p (Action.stop :: arrivals after) = [.ret (Stop p)] := by
      have h := listen_not_listening after (Stop p) rfl
      simp only [listen, dispatch, step, List.flatMap_cons, List.flatMap_nil,
        List.append_nil]
      exact h
    simp only [arrivals, List.map_nil, List.nil_append] at hstop ⊢
    rw [hstop]
    refine ⟨?_, rfl⟩
    intro o ho' msg
    simp only [List.mem_singleton] at ho'
    rw [ho']
    simp
  | cons e rest ih =>
    by_cases hl : p.listening = true
    · cases hr : e.2 with
      | false =>
        have hd : dispatch p (.event e.1 e.2) = [.blocked] := by
          simp [dispatch, step, hl, hr, startCallback_open p e.1 false hc ho]
        simp only [arrivals, List.map_cons, List.cons_append, listen, hd,
          List.flatMap_cons, List.flatMap_nil, List.append_nil]
        refine ⟨?_, trivial⟩
        intro o ho' msg
        simp only [List.mem_singleton] at ho'
        rw [ho']
        simp
      | true =>
        have hd : dispatch p (.event e.1 e.2) =
            [.ret { p with stream := { p.stream with
                      received := p.stream.received ++ [makeMessage e.1] } }] := by
          simp [dispatch, step, hl, hr, startCallback_open p e.1 true hc ho]
        have h := ih { p with stream := { p.stream with
                        received := p.stream.received ++ [makeMessage e.1] } } hc ho
        simp only [arrivals, List.map_cons, List.cons_append, listen, hd,
          List.flatMap_cons, List.flatMap_nil, List.append_nil] at h ⊢
        exact h
    · have hd : dispatch p (.event e.1 e.2) = [.ret p] := by
        simp [dispatch, hl]
      have h := ih p hc ho
      simp only [arrivals, List.map_cons, List.cons_append, listen, hd,
        List.flatMap_cons, List.flatMap_nil, List.append_nil] at h ⊢
      exact h

/-- C5 on the session started on port A: a Note-On arrives and is read, `Stop`
is called, then a Note-Off and a Note-On arrive. -/
theorem stream_closed_at_most_once_witness :
    (Start (freshSession portA) none).1.cancelled = false ∧
    (Start (freshSession portA) none).1.stream.closed = false ∧
    ((∀ o ∈ listen (Start (freshSession portA) none).1
          (arrivals [(.noteOn 0 60 100, true)] ++ Action.stop ::
            arrivals [(.noteOff 0 60, false), (.noteOn 0 62 90, true)]),
        ∀ msg, o ≠ .panic msg) ∧
     listen (Start (freshSession portA) none).1
          (arrivals [(.noteOn 0 60 100, true)] ++ Action.stop ::
            arrivals [(.noteOff 0 60, false), (.noteOn 0 62 90, true)]) =
       listen (Start (freshSession portA) none).1
          (arrivals [(.noteOn 0 60 100, true)] ++ [Action.stop])) :=
  ⟨rfl, rfl,
   stream_closed_at_most_once [(.noteOn 0 60 100, true)]
     [(.noteOff 0 60, false), (.noteOn 0 62 90, true)]
     (Start (freshSession portA) none).1 rfl rfl⟩

/-- C6: whatever ports the driver reports after starting and enumerating
without error, `Inputs` returns the nil slice and the nil error; with the one
port named "A" the result is not the slice holding "A". -/
theorem Inputs_returns_nil :
    (∀ inputs : List In, Inputs (driverWith inputs) = .ret (none, none)) ∧
    Inputs (driverWith [portA]) ≠ .ret (some ["A"], none) := by
  refine ⟨fun _ => rfl, ?_⟩
  intro h
  simp [Inputs, driverWith] at h

/-- C7 as stated fails: with the two ports A and B and `deviceNum = 1`, the
position 1 of the enumeration holds B, while the session `New` returns holds A,
and `Open` was invoked on A only. -/
theorem New_ignores_deviceNum :
    (driverWith [portA, portB]).ins.1[1]? = some portB ∧
    New (driverWith [portA, portB]) 1 =
      { result := .ret (some (freshSession portA), none), openCalls := [portA] } ∧
    (freshSession portA).input ≠ portB ∧
    portB ∉ (New (driverWith [portA, portB]) 1).openCalls := by
  refine ⟨rfl, rfl, ?_, ?_⟩
  · simp [freshSession, portA, portB]
  · simp [New, driverWith, portA, portB]

/-- C7, amended: when the driver starts and enumerates without error and
reports the ports `first :: rest`, `Open` on `first` succeeds, and
`0 <= deviceNum < n`, then `New deviceNum` returns, with a nil error, a session
that holds `first`, the port at position 0 of the enumeration, and `Open` was
invoked on that port and on no other. -/
theorem New_opens_first (env : DriverEnv) (deviceNum : Int) (first : In) (rest : List In)
    (hnew : env.newErr = none) (hins : env.ins = (first :: rest, none))
    (hopen : first.openErr = none)
    (h0 : 0 ≤ deviceNum) (hlt : deviceNum < ((first :: rest).length : Int)) :
    New env deviceNum =
      { result := .ret (some (freshSession first), none), openCalls := [first] } ∧
    (freshSession first).input.openErr = none := by
  have hle : deviceNum ≤ (rest.length : Int) + 1 := by
    simp only [List.length_cons, Nat.cast_add, Nat.cast_one] at hlt
    exact le_of_lt hlt
  refine ⟨?_, hopen⟩
  unfold New
  rw [hnew, hins]
  simp [hle, freshSession]

/-- The amended C7 at the ports A and B with `deviceNum = 1`. -/
theorem New_opens_first_witness :
    (driverWith [portA, portB]).newErr = none ∧
    (driverWith [portA, portB]).ins = (portA :: [portB], none) ∧
    portA.openErr = none ∧ (0 : Int) ≤ 1 ∧ (1 : Int) < ((portA :: [portB]).length : Int) ∧
    (New (driverWith [portA, portB]) 1 =
      { result := .ret (some (freshSession portA), none), openCalls := [portA] } ∧
     (freshSession portA).input.openErr = none) :=
  ⟨rfl, rfl, rfl, by decide, by decide,
   New_opens_first (driverWith [portA, portB]) 1 portA [portB] rfl rfl rfl
     (by decide) (by decide)⟩

/-- C8: when the driver starts and enumerates without error and reports `n`
ports, `New deviceNum` with `deviceNum > n` returns the nil session together
with the invalid-device error built from `deviceNum` and `n`, and `Open` is
invoked on no port. -/
theorem New_rejects_above (env : DriverEnv) (deviceNum : Int)
    (hnew : env.newErr = none) (hins : env.ins.2 = none)
    (hgt : deviceNum > (env.ins.1.length : Int)) :
    New env deviceNum =
      { result := .ret (none, some (.errorf deviceNum env.ins.1.length)), openCalls := [] } := by
  unfold New
  rw [hnew, hins]
  simp only [hgt, if_true]

/-- C8 at one port and `deviceNum = 2`. -/
theorem New_rejects_above_witness :
    (driverWith [portA]).newErr = none ∧ (driverWith [portA]).ins.2 = none ∧
    (2 : Int) > ((driverWith [portA]).ins.1.length : Int) ∧
    New (driverWith [portA]) 2 =
      { result := .ret (none, some (.errorf 2 (driverWith [portA]).ins.1.length)),
        openCalls := [] } :=
  ⟨rfl, rfl, by decide, New_rejects_above (driverWith [portA]) 2 rfl rfl (by decide)⟩

/-- C9: with a driver that reports no port, `New 0` passes the range check
(0 is not greater than 0) and panics on `inputs[0]`; it returns neither an error
nor a session. -/
theorem New_zero_devices_panics :
    New (driverWith []) 0 =
      { result := .panic "runtime error: index out of range [0] with length 0", openCalls := [] } := by
  rfl

/-- C10: with a driver whose only port fails to open, `New 0` invokes `Open` on
that port and still returns a session holding it, with a nil error. -/
theorem New_drops_open_error :
    portBroken.openErr = some (.driver "open failed") ∧
    New (driverWith [portBroken]) 0 =
      { result := .ret (some (freshSession portBroken), none), openCalls := [portBroken] } := by
  refine ⟨rfl, rfl⟩

end Pbmidi
